import Mathlib

/-
Verification development for the soil-carbon-api repository.

The repository exposes one HTTP endpoint (POST /soil_carbon, in two
variants: src/main.py, the real lookup, and src/main_simple.py, a mock)
around a nearest-neighbour lookup over the OSSL tabular dataset
(find_soil_carbon_optimized in src/main.py).

Embedding choices:
- A dataset row (after the dropna on the two coordinate columns) is a
  `Sample`: an index label (`nearest.name` in pandas), the two coordinate
  columns, and a field-keyed map for the three organic-carbon columns
  (modelling `row.get(var)`).
- Numbers are ℚ.  The projected distance computation (lines 79-83 of
  src/main.py: reproject to EPSG:3857, take planar Euclidean distance) is
  transcendental, so the candidate-selection pipeline takes the distance
  function `distOf` as a parameter; the actual function the code uses is
  modelled separately over ℝ as `mercatorDistance` below, next to the
  great-circle distance the specification speaks about.
- Pydantic validation of SoilCarbonRequest (Field ge/le bounds, the
  10.0 default for an omitted max_distance_km, and the fact that an
  explicit null passes an Optional field's bounds) is modelled by
  `validate` over a raw JSON-level request.
- FastAPI & handler outcomes are an `HttpResponse`: `ok` (HTTP 200 with a
  SoilCarbonResponse body), `clientError` (an HTTPException / validation
  rejection with a 4xx status), `serverError` (the HTTP 500 branch).
-/

namespace SoilCarbonApi

/-- A JSON scalar value appearing in the `data` dict of a response. -/
inductive JVal where
  | num (q : ℚ)
  | str (s : String)

deriving instance DecidableEq for JVal

/-- One row of the OSSL properties table after
`dropna(subset=['latitude.point_wgs84_dd', 'longitude.point_wgs84_dd'])`:
the pandas index label (`.name`), the two coordinate columns, and the
row's value in each named carbon column (`row.get(var)`), `none` for NaN. -/
structure Sample where
  id : String
  lat : ℚ
  lon : ℚ
  carbon : String → Option ℚ

/-- The prioritized carbon columns scanned by the for-loop in
src/main.py lines 94-98. -/
def candidateFields : List String :=
  ["oc_iso.10694_w.pct", "oc_usda.c1059_w.pct", "oc_usda.c729_w.pct"]

/-- The for-loop of src/main.py lines 94-98: first non-null value among
the three candidate columns, in order. -/
def firstAvailableCarbon (s : Sample) : Option ℚ :=
  candidateFields.findSome? s.carbon

/-- Membership in the bounding box `input_point.buffer(buffer_deg).bounds`
(src/main.py lines 68-73): a point geometry intersects that box iff each
coordinate is within `bufferDeg` of the query point. -/
def inBBox (lat lon bufferDeg : ℚ) (s : Sample) : Bool :=
  decide (lon - bufferDeg ≤ s.lon) && decide (s.lon ≤ lon + bufferDeg) &&
  decide (lat - bufferDeg ≤ s.lat) && decide (s.lat ≤ lat + bufferDeg)

/-- `possible_matches` (src/main.py lines 66-74): the spatial-index query
restricted to the bounding box of radius `max_distance_km / 111` degrees. -/
def bboxFilter (lat lon d : ℚ) (ds : List Sample) : List Sample :=
  ds.filter (inBBox lat lon (d / 111))

/-- `nearby` (src/main.py line 85): bounding-box candidates whose computed
distance is at most `max_distance_km * 1000` meters. -/
def nearbyFilter (distOf : ℚ → ℚ → Sample → ℚ) (lat lon d : ℚ)
    (ds : List Sample) : List Sample :=
  (bboxFilter lat lon d ds).filter (fun s => decide (distOf lat lon s ≤ d * 1000))

/-- `nearby.sort_values('distance_m').iloc[0]` (src/main.py line 91): an
element of the nonempty candidate list whose distance is minimal. -/
def minByDist (f : Sample → ℚ) (s : Sample) (rest : List Sample) : Sample :=
  rest.foldl (fun best t => if f t < f best then t else best) s

/-- The two shapes `find_soil_carbon_optimized` can return on the normal
path: an error-message string, or the result dict of lines 102-108. -/
inductive LookupResult where
  | noData (msg : String)
  | found (dict : List (String × JVal))

deriving instance DecidableEq for LookupResult

/-- The message of src/main.py lines 77 and 88. -/
def noDataMsg (d : ℚ) : String := "No Data in " ++ toString d ++ " km radius"

/-- The message of src/main.py line 100. -/
def noCarbonMsg (d : ℚ) : String :=
  "No organic carbon data available within " ++ toString d ++ " km"

/-- The result dict of src/main.py lines 102-108. -/
def carbonDict (c : ℚ) (s : Sample) (dm : ℚ) : List (String × JVal) :=
  [("carbon_pct", JVal.num c),
   ("sample_id", JVal.str s.id),
   ("distance_meters", JVal.num dm),
   ("latitude", JVal.num s.lat),
   ("longitude", JVal.num s.lon)]

/-- src/main.py lines 90-108: take the nearest candidate, scan its three
carbon columns, and either report the no-carbon message or build the
result dict. -/
def carbonResult (d : ℚ) (s : Sample) (dm : ℚ) : LookupResult :=
  match firstAvailableCarbon s with
  | none => LookupResult.noData (noCarbonMsg d)
  | some c => LookupResult.found (carbonDict c s dm)

/-- src/main.py lines 85-108: the radius check on the distance-annotated
candidates, then nearest-sample selection and the carbon scan. -/
def selectResult (f : Sample → ℚ) (d : ℚ) : List Sample → LookupResult
  | [] => LookupResult.noData (noDataMsg d)
  | s :: rest => carbonResult d (minByDist f s rest) (f (minByDist f s rest))

/-- The body of `find_soil_carbon_optimized` (src/main.py lines 66-108)
for a numeric `max_distance_km`, with the projected distance function as
the `distOf` parameter. -/
def find_soil_carbon_core (distOf : ℚ → ℚ → Sample → ℚ) (ds : List Sample)
    (lat lon d : ℚ) : LookupResult :=
  if (bboxFilter lat lon d ds).isEmpty then
    LookupResult.noData (noDataMsg d)
  else
    selectResult (fun s => distOf lat lon s) d (nearbyFilter distOf lat lon d ds)

/-- The exception raised when `max_distance_km` is None: line 68 divides
None by 111.0, the TypeError is caught at line 110 and re-raised wrapped
in the prefix of line 111. -/
def noneTypeError : String :=
  "Error processing soil carbon data: unsupported operand type for / between NoneType and float"

/-- `find_soil_carbon_optimized` as called by the handler: a None
`max_distance_km` raises (Except.error), a numeric one runs the lookup. -/
def find_soil_carbon_optimized (distOf : ℚ → ℚ → Sample → ℚ) (ds : List Sample)
    (lat lon : ℚ) : Option ℚ → Except String LookupResult
  | none => Except.error noneTypeError
  | some d => Except.ok (find_soil_carbon_core distOf ds lat lon d)

/-- The validated request model SoilCarbonRequest (src/main.py lines
18-21): after pydantic validation, `max_distance_km` is `none` exactly
when the JSON body carried an explicit null. -/
structure SoilCarbonRequest where
  latitude : ℚ
  longitude : ℚ
  max_distance_km : Option ℚ

deriving instance DecidableEq for SoilCarbonRequest

/-- The response model SoilCarbonResponse (src/main.py lines 23-26); the
`data` dict is a key-ordered association list. -/
structure SoilCarbonResponse where
  success : Bool
  message : String
  data : Option (List (String × JVal))

deriving instance DecidableEq for SoilCarbonResponse

/-- Outcome of a POST /soil_carbon request at the HTTP level. -/
inductive HttpResponse where
  | ok (body : SoilCarbonResponse)
  | clientError (code : Nat) (detail : String)
  | serverError (detail : String)

deriving instance DecidableEq for HttpResponse

/-- The state of the `max_distance_km` member of the raw JSON body:
absent, explicit null, or a number. -/
inductive FieldVal where
  | absent
  | null
  | value (x : ℚ)

deriving instance DecidableEq for FieldVal

/-- A raw JSON request body with numeric latitude and longitude. -/
structure RawRequest where
  latitude : ℚ
  longitude : ℚ
  max_distance_km : FieldVal

/-- Pydantic validation of SoilCarbonRequest (src/main.py lines 18-21 and
the identical model in src/main_simple.py lines 14-17): latitude in
[-90, 90], longitude in [-180, 180]; `max_distance_km` defaults to 10.0
when absent, passes through as None when explicitly null (the ge/le
bounds of an Optional field do not apply to None), and when numeric must
lie in [0.1, 1000]. -/
def validate (r : RawRequest) : Option SoilCarbonRequest :=
  if -90 ≤ r.latitude ∧ r.latitude ≤ 90 then
    if -180 ≤ r.longitude ∧ r.longitude ≤ 180 then
      match r.max_distance_km with
      | FieldVal.absent => some ⟨r.latitude, r.longitude, some 10⟩
      | FieldVal.null => some ⟨r.latitude, r.longitude, none⟩
      | FieldVal.value x =>
          if 1/10 ≤ x ∧ x ≤ 1000 then some ⟨r.latitude, r.longitude, some x⟩
          else none
    else none
  else none

/-- Shaping of the lookup outcome by the handler (src/main.py lines
161-183): a string becomes success=false with null data, a dict becomes
success=true, and a raised exception becomes an HTTP 500. -/
def toResponse : Except String LookupResult → HttpResponse
  | Except.error e => HttpResponse.serverError ("Internal server error: " ++ e)
  | Except.ok (LookupResult.noData msg) => HttpResponse.ok ⟨false, msg, none⟩
  | Except.ok (LookupResult.found dict) =>
      HttpResponse.ok ⟨true, "Soil carbon data found successfully", some dict⟩

/-- The handler get_soil_carbon of src/main.py (lines 130-183): the
redundant in-body coordinate checks, then the lookup call and response
shaping. -/
def get_soil_carbon (distOf : ℚ → ℚ → Sample → ℚ) (ds : List Sample)
    (req : SoilCarbonRequest) : HttpResponse :=
  if ¬(-90 ≤ req.latitude ∧ req.latitude ≤ 90) then
    HttpResponse.clientError 400 "Latitude must be between -90 and 90 degrees"
  else if ¬(-180 ≤ req.longitude ∧ req.longitude ≤ 180) then
    HttpResponse.clientError 400 "Longitude must be between -180 and 180 degrees"
  else
    toResponse (find_soil_carbon_optimized distOf ds req.latitude req.longitude
      req.max_distance_km)

/-- POST /soil_carbon in the real variant: FastAPI model validation (a
422 client error when it fails), then the handler. -/
def post_soil_carbon (distOf : ℚ → ℚ → Sample → ℚ) (ds : List Sample)
    (raw : RawRequest) : HttpResponse :=
  match validate raw with
  | none => HttpResponse.clientError 422 "Unprocessable Entity"
  | some req => get_soil_carbon distOf ds req

/-- The note string in the mock data (src/main_simple.py line 81). -/
def mockNote : String :=
  "This is mock data. Real soil carbon functionality will be added after deployment."

/-- The handler of src/main_simple.py (lines 54-98): the same coordinate
checks, then a fixed mock payload with the request coordinates offset by
+0.01. -/
def get_soil_carbon_simple (req : SoilCarbonRequest) : HttpResponse :=
  if ¬(-90 ≤ req.latitude ∧ req.latitude ≤ 90) then
    HttpResponse.clientError 400 "Latitude must be between -90 and 90 degrees"
  else if ¬(-180 ≤ req.longitude ∧ req.longitude ≤ 180) then
    HttpResponse.clientError 400 "Longitude must be between -180 and 180 degrees"
  else
    HttpResponse.ok ⟨true, "Mock soil carbon data returned successfully", some
      [("carbon_pct", JVal.num (5/2)),
       ("sample_id", JVal.str "mock_12345"),
       ("distance_meters", JVal.num 1500),
       ("latitude", JVal.num (req.latitude + 1/100)),
       ("longitude", JVal.num (req.longitude + 1/100)),
       ("note", JVal.str mockNote)]⟩

/-- POST /soil_carbon in the mock variant. -/
def post_soil_carbon_simple (raw : RawRequest) : HttpResponse :=
  match validate raw with
  | none => HttpResponse.clientError 422 "Unprocessable Entity"
  | some req => get_soil_carbon_simple req

/-- Key list of the data dict of an HTTP-200 response, when present. -/
def HttpResponse.dataKeys : HttpResponse → Option (List String)
  | HttpResponse.ok body => body.data.map (fun dict => dict.map Prod.fst)
  | _ => none

/-- The sphere radius of the EPSG:3857 (Web Mercator) projection, in
meters. -/
noncomputable def earthRadius : ℝ := 6378137

/-- Degrees to radians. -/
noncomputable def degToRad (x : ℝ) : ℝ := x * Real.pi / 180

/-- Easting of a WGS84 longitude under EPSG:3857 (`to_crs(epsg=3857)`,
src/main.py lines 79-81). -/
noncomputable def mercatorX (lon : ℝ) : ℝ := earthRadius * degToRad lon

/-- Northing of a WGS84 latitude under EPSG:3857. -/
noncomputable def mercatorY (lat : ℝ) : ℝ :=
  earthRadius * Real.log (Real.tan (Real.pi / 4 + degToRad lat / 2))

/-- The `distance_m` the code computes (src/main.py line 83): the planar
Euclidean distance between the two points after reprojection to
EPSG:3857. -/
noncomputable def mercatorDistance (lat1 lon1 lat2 lon2 : ℝ) : ℝ :=
  Real.sqrt ((mercatorX lon1 - mercatorX lon2) ^ 2 +
    (mercatorY lat1 - mercatorY lat2) ^ 2)

/-- Modelled from the spec: the great-circle distance in meters between
two WGS84 points on the sphere of radius `earthRadius`, which the
specification asserts the computed distances equal ("exact
great-circle-equivalent planar distances after reprojection"). -/
noncomputable def greatCircleDistance (lat1 lon1 lat2 lon2 : ℝ) : ℝ :=
  earthRadius * Real.arccos (Real.sin (degToRad lat1) * Real.sin (degToRad lat2) +
    Real.cos (degToRad lat1) * Real.cos (degToRad lat2) *
      Real.cos (degToRad lon1 - degToRad lon2))

/-! ## Helper lemmas about the selection pipeline -/

theorem minByDist_cons (f : Sample → ℚ) (s t : Sample) (rest : List Sample) :
    minByDist f s (t :: rest) = minByDist f (if f t < f s then t else s) rest := rfl

theorem minByDist_mem (f : Sample → ℚ) (rest : List Sample) :
    ∀ s, minByDist f s rest ∈ s :: rest := by
  induction rest with
  | nil => intro s; simp [minByDist]
  | cons t rest ih =>
    intro s
    rw [minByDist_cons]
    rcases List.mem_cons.mp (ih (if f t < f s then t else s)) with h | h
    · rw [h]
      by_cases hc : f t < f s
      · simp [hc]
      · simp [hc]
    · exact List.mem_cons_of_mem _ (List.mem_cons_of_mem _ h)

theorem minByDist_le (f : Sample → ℚ) (rest : List Sample) :
    ∀ s, ∀ t ∈ s :: rest, f (minByDist f s rest) ≤ f t := by
  induction rest with
  | nil =>
    intro s t ht
    rcases List.mem_cons.mp ht with h | h
    · rw [h]; simp [minByDist]
    · exact absurd h (List.not_mem_nil t)
  | cons u rest ih =>
    intro s t ht
    rw [minByDist_cons]
    have hsel : f (minByDist f (if f u < f s then u else s) rest) ≤
        f (if f u < f s then u else s) :=
      ih _ _ (List.mem_cons_self _ _)
    rcases List.mem_cons.mp ht with h | h
    · rw [h]
      refine le_trans hsel ?_
      by_cases hc : f u < f s
      · rw [if_pos hc]; exact le_of_lt hc
      · rw [if_neg hc]
    · rcases List.mem_cons.mp h with h2 | h2
      · rw [h2]
        refine le_trans hsel ?_
        by_cases hc : f u < f s
        · rw [if_pos hc]
        · rw [if_neg hc]; exact le_of_not_lt hc
      · exact ih _ _ (List.mem_cons_of_mem _ h2)

theorem bboxFilter_not_empty_of_nearby_mem (distOf : ℚ → ℚ → Sample → ℚ)
    (ds : List Sample) (lat lon d : ℚ) (s : Sample)
    (h : s ∈ nearbyFilter distOf lat lon d ds) :
    (bboxFilter lat lon d ds).isEmpty = false := by
  have hsb : s ∈ bboxFilter lat lon d ds := List.mem_of_mem_filter h
  cases hb : bboxFilter lat lon d ds with
  | nil => rw [hb] at hsb; exact absurd hsb (List.not_mem_nil s)
  | cons a l => rfl

theorem core_eq_of_nearby_nil (distOf : ℚ → ℚ → Sample → ℚ) (ds : List Sample)
    (lat lon d : ℚ) (h : nearbyFilter distOf lat lon d ds = []) :
    find_soil_carbon_core distOf ds lat lon d = LookupResult.noData (noDataMsg d) := by
  unfold find_soil_carbon_core
  by_cases hbb : (bboxFilter lat lon d ds).isEmpty
  · rw [if_pos hbb]
  · rw [if_neg hbb, h]
    rfl

theorem core_eq_of_nearest_no_carbon (distOf : ℚ → ℚ → Sample → ℚ)
    (ds : List Sample) (lat lon d : ℚ) (s : Sample) (rest : List Sample)
    (hnb : nearbyFilter distOf lat lon d ds = s :: rest)
    (hc : firstAvailableCarbon (minByDist (fun t => distOf lat lon t) s rest) = none) :
    find_soil_carbon_core distOf ds lat lon d = LookupResult.noData (noCarbonMsg d) := by
  unfold find_soil_carbon_core
  rw [if_neg (by
    rw [bboxFilter_not_empty_of_nearby_mem distOf ds lat lon d s
      (by rw [hnb]; exact List.mem_cons_self _ _)]
    exact Bool.false_ne_true), hnb]
  show carbonResult d (minByDist (fun t => distOf lat lon t) s rest) _ =
    LookupResult.noData (noCarbonMsg d)
  unfold carbonResult
  rw [hc]

theorem core_eq_of_nearest_carbon (distOf : ℚ → ℚ → Sample → ℚ)
    (ds : List Sample) (lat lon d : ℚ) (s : Sample) (rest : List Sample) (c : ℚ)
    (hnb : nearbyFilter distOf lat lon d ds = s :: rest)
    (hc : firstAvailableCarbon (minByDist (fun t => distOf lat lon t) s rest) = some c) :
    find_soil_carbon_core distOf ds lat lon d =
      LookupResult.found (carbonDict c (minByDist (fun t => distOf lat lon t) s rest)
        (distOf lat lon (minByDist (fun t => distOf lat lon t) s rest))) := by
  unfold find_soil_carbon_core
  rw [if_neg (by
    rw [bboxFilter_not_empty_of_nearby_mem distOf ds lat lon d s
      (by rw [hnb]; exact List.mem_cons_self _ _)]
    exact Bool.false_ne_true), hnb]
  show carbonResult d (minByDist (fun t => distOf lat lon t) s rest) _ = _
  unfold carbonResult
  rw [hc]

theorem find_core_found_cases (distOf : ℚ → ℚ → Sample → ℚ) (ds : List Sample)
    (lat lon d : ℚ) (dict : List (String × JVal))
    (h : find_soil_carbon_core distOf ds lat lon d = LookupResult.found dict) :
    ∃ s rest, nearbyFilter distOf lat lon d ds = s :: rest ∧
      ∃ c, firstAvailableCarbon (minByDist (fun t => distOf lat lon t) s rest) = some c ∧
        dict = carbonDict c (minByDist (fun t => distOf lat lon t) s rest)
          (distOf lat lon (minByDist (fun t => distOf lat lon t) s rest)) := by
  cases hnb : nearbyFilter distOf lat lon d ds with
  | nil =>
    rw [core_eq_of_nearby_nil distOf ds lat lon d hnb] at h
    exact absurd h (by simp)
  | cons s rest =>
    cases hc : firstAvailableCarbon (minByDist (fun t => distOf lat lon t) s rest) with
    | none =>
      rw [core_eq_of_nearest_no_carbon distOf ds lat lon d s rest hnb hc] at h
      exact absurd h (by simp)
    | some c =>
      rw [core_eq_of_nearest_carbon distOf ds lat lon d s rest c hnb hc] at h
      injection h with h2
      exact ⟨s, rest, rfl, c, hc, h2.symm⟩

theorem carbonDict_lookup_distance (c : ℚ) (s : Sample) (dm : ℚ) :
    (carbonDict c s dm).lookup "distance_meters" = some (JVal.num dm) := rfl

theorem carbonDict_keys (c : ℚ) (s : Sample) (dm : ℚ) :
    (carbonDict c s dm).map Prod.fst =
      ["carbon_pct", "sample_id", "distance_meters", "latitude", "longitude"] := rfl

/-! ## Helper lemmas about validation and the handlers -/

theorem validate_value_eq (lat lon d : ℚ) (hlat : -90 ≤ lat ∧ lat ≤ 90)
    (hlon : -180 ≤ lon ∧ lon ≤ 180) (hd : 1/10 ≤ d ∧ d ≤ 1000) :
    validate ⟨lat, lon, FieldVal.value d⟩ = some ⟨lat, lon, some d⟩ := by
  unfold validate
  rw [if_pos hlat, if_pos hlon]
  show (if 1/10 ≤ d ∧ d ≤ 1000 then _ else _) = _
  rw [if_pos hd]

theorem validate_absent_eq (lat lon : ℚ) (hlat : -90 ≤ lat ∧ lat ≤ 90)
    (hlon : -180 ≤ lon ∧ lon ≤ 180) :
    validate ⟨lat, lon, FieldVal.absent⟩ = some ⟨lat, lon, some 10⟩ := by
  unfold validate
  rw [if_pos hlat, if_pos hlon]

theorem validate_null_eq (lat lon : ℚ) (hlat : -90 ≤ lat ∧ lat ≤ 90)
    (hlon : -180 ≤ lon ∧ lon ≤ 180) :
    validate ⟨lat, lon, FieldVal.null⟩ = some ⟨lat, lon, none⟩ := by
  unfold validate
  rw [if_pos hlat, if_pos hlon]

theorem validate_none_of_out_of_range (raw : RawRequest)
    (h : ¬(-90 ≤ raw.latitude ∧ raw.latitude ≤ 90) ∨
      ¬(-180 ≤ raw.longitude ∧ raw.longitude ≤ 180)) :
    validate raw = none := by
  unfold validate
  rcases h with h | h
  · rw [if_neg h]
  · by_cases hlat : -90 ≤ raw.latitude ∧ raw.latitude ≤ 90
    · rw [if_pos hlat, if_neg h]
    · rw [if_neg hlat]

theorem validate_value_none (lat lon x : ℚ) (hlat : -90 ≤ lat ∧ lat ≤ 90)
    (hlon : -180 ≤ lon ∧ lon ≤ 180) (hx : ¬(1/10 ≤ x ∧ x ≤ 1000)) :
    validate ⟨lat, lon, FieldVal.value x⟩ = none := by
  unfold validate
  rw [if_pos hlat, if_pos hlon]
  show (if 1/10 ≤ x ∧ x ≤ 1000 then _ else _) = _
  rw [if_neg hx]

theorem validate_some_ranges (raw : RawRequest) (req : SoilCarbonRequest)
    (h : validate raw = some req) :
    -90 ≤ req.latitude ∧ req.latitude ≤ 90 ∧
    -180 ≤ req.longitude ∧ req.longitude ≤ 180 := by
  obtain ⟨lat, lon, m⟩ := raw
  by_cases hlat : -90 ≤ lat ∧ lat ≤ 90
  · by_cases hlon : -180 ≤ lon ∧ lon ≤ 180
    · cases m with
      | absent =>
        rw [validate_absent_eq lat lon hlat hlon] at h
        injection h with h2
        rw [← h2]
        exact ⟨hlat.1, hlat.2, hlon.1, hlon.2⟩
      | null =>
        rw [validate_null_eq lat lon hlat hlon] at h
        injection h with h2
        rw [← h2]
        exact ⟨hlat.1, hlat.2, hlon.1, hlon.2⟩
      | value x =>
        by_cases hx : 1/10 ≤ x ∧ x ≤ 1000
        · rw [validate_value_eq lat lon x hlat hlon hx] at h
          injection h with h2
          rw [← h2]
          exact ⟨hlat.1, hlat.2, hlon.1, hlon.2⟩
        · rw [validate_value_none lat lon x hlat hlon hx] at h
          exact absurd h (by simp)
    · rw [validate_none_of_out_of_range _ (Or.inr hlon)] at h
      exact absurd h (by simp)
  · rw [validate_none_of_out_of_range _ (Or.inl hlat)] at h
    exact absurd h (by simp)

theorem get_soil_carbon_in_range (distOf : ℚ → ℚ → Sample → ℚ) (ds : List Sample)
    (req : SoilCarbonRequest) (hlat : -90 ≤ req.latitude ∧ req.latitude ≤ 90)
    (hlon : -180 ≤ req.longitude ∧ req.longitude ≤ 180) :
    get_soil_carbon distOf ds req =
      toResponse (find_soil_carbon_optimized distOf ds req.latitude req.longitude
        req.max_distance_km) := by
  unfold get_soil_carbon
  rw [if_neg (not_not_intro hlat), if_neg (not_not_intro hlon)]

theorem post_value_eq (distOf : ℚ → ℚ → Sample → ℚ) (ds : List Sample)
    (lat lon d : ℚ) (hlat : -90 ≤ lat ∧ lat ≤ 90)
    (hlon : -180 ≤ lon ∧ lon ≤ 180) (hd : 1/10 ≤ d ∧ d ≤ 1000) :
    post_soil_carbon distOf ds ⟨lat, lon, FieldVal.value d⟩ =
      toResponse (Except.ok (find_soil_carbon_core distOf ds lat lon d)) := by
  unfold post_soil_carbon
  rw [validate_value_eq lat lon d hlat hlon hd]
  show get_soil_carbon distOf ds ⟨lat, lon, some d⟩ = _
  rw [get_soil_carbon_in_range distOf ds ⟨lat, lon, some d⟩ hlat hlon]
  rfl

theorem noDataMsg_prefix (d : ℚ) :
    noDataMsg d = "No Data" ++ (" in " ++ (toString d ++ " km radius")) := by
  have h1 : "No Data in " = "No Data" ++ " in " := rfl
  show "No Data in " ++ toString d ++ " km radius" = _
  rw [h1, String.append_assoc, String.append_assoc]

theorem get_soil_carbon_not_clientError (distOf : ℚ → ℚ → Sample → ℚ)
    (ds : List Sample) (req : SoilCarbonRequest)
    (hlat : -90 ≤ req.latitude ∧ req.latitude ≤ 90)
    (hlon : -180 ≤ req.longitude ∧ req.longitude ≤ 180) :
    ∀ code detail, get_soil_carbon distOf ds req ≠ HttpResponse.clientError code detail := by
  intro code detail
  rw [get_soil_carbon_in_range distOf ds req hlat hlon]
  cases hfe : find_soil_carbon_optimized distOf ds req.latitude req.longitude
      req.max_distance_km with
  | error e => simp [toResponse]
  | ok r => cases r <;> simp [toResponse]

theorem get_soil_carbon_simple_in_range (req : SoilCarbonRequest)
    (hlat : -90 ≤ req.latitude ∧ req.latitude ≤ 90)
    (hlon : -180 ≤ req.longitude ∧ req.longitude ≤ 180) :
    get_soil_carbon_simple req =
      HttpResponse.ok ⟨true, "Mock soil carbon data returned successfully", some
        [("carbon_pct", JVal.num (5/2)),
         ("sample_id", JVal.str "mock_12345"),
         ("distance_meters", JVal.num 1500),
         ("latitude", JVal.num (req.latitude + 1/100)),
         ("longitude", JVal.num (req.longitude + 1/100)),
         ("note", JVal.str mockNote)]⟩ := by
  unfold get_soil_carbon_simple
  rw [if_neg (not_not_intro hlat), if_neg (not_not_intro hlon)]

/-! ## Concrete data used in counterexamples and witnesses -/

/-- A sample at the query point whose three carbon columns are all NaN. -/
def sampleNoCarbon : Sample := ⟨"near", 0, 0, fun _ => none⟩

/-- A sample slightly away from the query point with a carbon value in the
third candidate column. -/
def sampleWithCarbon : Sample :=
  ⟨"far", 1/100, 0, fun f => if f == "oc_usda.c729_w.pct" then some (5/2) else none⟩

/-- A dataset whose nearest sample to (0, 0) has no carbon value while a
farther in-radius sample does. -/
def exDataset : List Sample := [sampleNoCarbon, sampleWithCarbon]

/-- A dataset holding only the carbon-bearing sample. -/
def goodDataset : List Sample := [sampleWithCarbon]

/-- A concrete projected-distance function: 100 m to the sample named
"near", 200 m to every other sample. -/
def exDist : ℚ → ℚ → Sample → ℚ := fun _ _ s => if s.id == "near" then 100 else 200

/-! ## Claims -/

/-- Claim C1, counterexample: with the query at (0, 0) and radius 10 km,
the sample "far" passes the bounding-box and radius filters and has a
non-null carbon value in a candidate field, yet the lookup does not
return data: the code takes the single nearest sample ("near", all-NaN
carbon) and then gives up, rather than selecting the closest sample
having a non-null carbon value as the claim states. -/
theorem c1_counterexample :
    inBBox 0 0 (10 / 111) sampleWithCarbon = true ∧
    exDist 0 0 sampleWithCarbon ≤ 10 * 1000 ∧
    firstAvailableCarbon sampleWithCarbon = some (5/2) ∧
    find_soil_carbon_core exDist exDataset 0 0 10 =
      LookupResult.noData (noCarbonMsg 10) := by
  refine ⟨by with_unfolding_all rfl, by with_unfolding_all decide,
    by with_unfolding_all rfl, ?_⟩
  with_unfolding_all rfl

/-- Claim C1 (amended): when the lookup succeeds it returns the nearest
candidate among those passing the bounding-box and radius filters, and
that nearest sample itself has a non-null carbon value in one of the
three prioritized candidate fields; the lookup does not fall back to a
farther in-radius sample when the nearest one has no carbon value. -/
theorem c1_success_returns_nearest_with_carbon (distOf : ℚ → ℚ → Sample → ℚ)
    (ds : List Sample) (lat lon d : ℚ) (dict : List (String × JVal))
    (h : find_soil_carbon_core distOf ds lat lon d = LookupResult.found dict) :
    ∃ s, s ∈ nearbyFilter distOf lat lon d ds ∧
      (∀ t ∈ nearbyFilter distOf lat lon d ds, distOf lat lon s ≤ distOf lat lon t) ∧
      ∃ c, firstAvailableCarbon s = some c ∧
        dict = carbonDict c s (distOf lat lon s) := by
  obtain ⟨s, rest, hnb, c, hc, hdict⟩ := find_core_found_cases distOf ds lat lon d dict h
  refine ⟨minByDist (fun t => distOf lat lon t) s rest, ?_, ?_, c, hc, hdict⟩
  · rw [hnb]
    exact minByDist_mem _ _ _
  · intro t ht
    rw [hnb] at ht
    exact minByDist_le (fun t => distOf lat lon t) rest s t ht

/-- Witness for C1 (amended) at the singleton carbon-bearing dataset. -/
theorem c1_success_returns_nearest_with_carbon_witness :
    find_soil_carbon_core exDist goodDataset 0 0 10 =
      LookupResult.found (carbonDict (5/2) sampleWithCarbon 200) ∧
    ∃ s, s ∈ nearbyFilter exDist 0 0 10 goodDataset ∧
      (∀ t ∈ nearbyFilter exDist 0 0 10 goodDataset,
        exDist 0 0 s ≤ exDist 0 0 t) ∧
      ∃ c, firstAvailableCarbon s = some c ∧
        carbonDict (5/2) sampleWithCarbon 200 = carbonDict c s (exDist 0 0 s) :=
  ⟨by with_unfolding_all rfl,
    c1_success_returns_nearest_with_carbon exDist goodDataset 0 0 10
      (carbonDict (5/2) sampleWithCarbon 200) (by with_unfolding_all rfl)⟩

/-- Claim C4: on a successful lookup the reported `distance_meters` is at
most `max_distance_km * 1000` and is minimal among the computed distances
of all candidates passing the bounding-box and radius filters. -/
theorem c4_nearest_within_radius (distOf : ℚ → ℚ → Sample → ℚ)
    (ds : List Sample) (lat lon d : ℚ) (dict : List (String × JVal))
    (h : find_soil_carbon_core distOf ds lat lon d = LookupResult.found dict) :
    ∃ dm, dict.lookup "distance_meters" = some (JVal.num dm) ∧
      dm ≤ d * 1000 ∧
      ∀ t ∈ nearbyFilter distOf lat lon d ds, dm ≤ distOf lat lon t := by
  obtain ⟨s, rest, hnb, c, hc, hdict⟩ := find_core_found_cases distOf ds lat lon d dict h
  refine ⟨distOf lat lon (minByDist (fun t => distOf lat lon t) s rest), ?_, ?_, ?_⟩
  · rw [hdict]
    exact carbonDict_lookup_distance _ _ _
  · have hm : minByDist (fun t => distOf lat lon t) s rest ∈
        nearbyFilter distOf lat lon d ds := by
      rw [hnb]
      exact minByDist_mem _ _ _
    unfold nearbyFilter at hm
    rw [List.mem_filter] at hm
    exact of_decide_eq_true hm.2
  · intro t ht
    rw [hnb] at ht
    exact minByDist_le (fun t => distOf lat lon t) rest s t ht

/-- Witness for C4 at the singleton carbon-bearing dataset. -/
theorem c4_nearest_within_radius_witness :
    find_soil_carbon_core exDist goodDataset 0 0 10 =
      LookupResult.found (carbonDict (5/2) sampleWithCarbon 200) ∧
    ∃ dm, (carbonDict (5/2) sampleWithCarbon 200).lookup "distance_meters" =
        some (JVal.num dm) ∧
      dm ≤ 10 * 1000 ∧
      ∀ t ∈ nearbyFilter exDist 0 0 10 goodDataset, dm ≤ exDist 0 0 t :=
  ⟨by with_unfolding_all rfl,
    c4_nearest_within_radius exDist goodDataset 0 0 10
      (carbonDict (5/2) sampleWithCarbon 200) (by with_unfolding_all rfl)⟩

/-- Claim C2: for an in-range request, when no candidate passes the
bounding-box and radius filters, or every such candidate lacks a non-null
carbon value, POST /soil_carbon answers HTTP 200 with success=false, null
data and an explanatory message, a "No Data" message in the
no-nearby-data case. -/
theorem c2_no_data_success_false (distOf : ℚ → ℚ → Sample → ℚ) (ds : List Sample)
    (lat lon d : ℚ) (hlat : -90 ≤ lat ∧ lat ≤ 90) (hlon : -180 ≤ lon ∧ lon ≤ 180)
    (hd : 1/10 ≤ d ∧ d ≤ 1000)
    (hnone : nearbyFilter distOf lat lon d ds = [] ∨
      ∀ s ∈ nearbyFilter distOf lat lon d ds, firstAvailableCarbon s = none) :
    ∃ msg, post_soil_carbon distOf ds ⟨lat, lon, FieldVal.value d⟩ =
        HttpResponse.ok ⟨false, msg, none⟩ ∧
      (nearbyFilter distOf lat lon d ds = [] → ∃ r, msg = "No Data" ++ r) := by
  have hpost := post_value_eq distOf ds lat lon d hlat hlon hd
  rcases hnone with hnb | hall
  · refine ⟨noDataMsg d, ?_, ?_⟩
    · rw [hpost, core_eq_of_nearby_nil distOf ds lat lon d hnb]
      rfl
    · intro _
      exact ⟨" in " ++ (toString d ++ " km radius"), noDataMsg_prefix d⟩
  · cases hnb : nearbyFilter distOf lat lon d ds with
    | nil =>
      refine ⟨noDataMsg d, ?_, ?_⟩
      · rw [hpost, core_eq_of_nearby_nil distOf ds lat lon d hnb]
        rfl
      · intro _
        exact ⟨" in " ++ (toString d ++ " km radius"), noDataMsg_prefix d⟩
    | cons s rest =>
      have hcnone : firstAvailableCarbon
          (minByDist (fun t => distOf lat lon t) s rest) = none := by
        apply hall
        rw [hnb]
        exact minByDist_mem _ _ _
      refine ⟨noCarbonMsg d, ?_, ?_⟩
      · rw [hpost, core_eq_of_nearest_no_carbon distOf ds lat lon d s rest hnb hcnone]
        rfl
      · intro hcontra
        exact absurd hcontra (by simp)

/-- Witness for C2 on the empty dataset. -/
theorem c2_no_data_success_false_witness :
    nearbyFilter exDist 0 0 10 [] = [] ∧
    ∃ msg, post_soil_carbon exDist [] ⟨0, 0, FieldVal.value 10⟩ =
        HttpResponse.ok ⟨false, msg, none⟩ ∧
      (nearbyFilter exDist 0 0 10 [] = [] → ∃ r, msg = "No Data" ++ r) :=
  ⟨by with_unfolding_all rfl,
    c2_no_data_success_false exDist [] 0 0 10 (by norm_num) (by norm_num) (by norm_num)
      (Or.inl (by with_unfolding_all rfl))⟩

/-- Claim C3: a request with latitude outside [-90, 90] or longitude
outside [-180, 180] fails model validation and is answered with a client
error; the response is the same for every dataset and distance function,
so the lookup is never consulted. -/
theorem c3_out_of_range_rejected (distOf : ℚ → ℚ → Sample → ℚ) (ds : List Sample)
    (raw : RawRequest)
    (h : raw.latitude < -90 ∨ 90 < raw.latitude ∨
      raw.longitude < -180 ∨ 180 < raw.longitude) :
    validate raw = none ∧
    post_soil_carbon distOf ds raw =
      HttpResponse.clientError 422 "Unprocessable Entity" := by
  have hv : validate raw = none := by
    apply validate_none_of_out_of_range
    rcases h with h | h | h | h
    · exact Or.inl (fun hc => absurd hc.1 (not_le.mpr h))
    · exact Or.inl (fun hc => absurd hc.2 (not_le.mpr h))
    · exact Or.inr (fun hc => absurd hc.1 (not_le.mpr h))
    · exact Or.inr (fun hc => absurd hc.2 (not_le.mpr h))
  refine ⟨hv, ?_⟩
  unfold post_soil_carbon
  rw [hv]

/-- Witness for C3 at the invalid-latitude request of the manual test
script (latitude 200). -/
theorem c3_out_of_range_rejected_witness :
    ((90:ℚ) < 200) ∧
    (validate ⟨200, -71, FieldVal.value 10⟩ = none ∧
      post_soil_carbon exDist exDataset ⟨200, -71, FieldVal.value 10⟩ =
        HttpResponse.clientError 422 "Unprocessable Entity") :=
  ⟨by norm_num,
    c3_out_of_range_rejected exDist exDataset ⟨200, -71, FieldVal.value 10⟩
      (Or.inr (Or.inl (by with_unfolding_all decide)))⟩

/-- Claim C5, counterexample: in the mock variant (also cited by the
claim), a success=true response's data dict carries the extra key "note"
in addition to the five listed fields, so the data object does not
contain exactly the fields carbon_pct, sample_id, distance_meters,
latitude, longitude. -/
theorem c5_counterexample :
    post_soil_carbon_simple ⟨0, 0, FieldVal.value 10⟩ =
      HttpResponse.ok ⟨true, "Mock soil carbon data returned successfully", some
        [("carbon_pct", JVal.num (5/2)),
         ("sample_id", JVal.str "mock_12345"),
         ("distance_meters", JVal.num 1500),
         ("latitude", JVal.num (1/100)),
         ("longitude", JVal.num (1/100)),
         ("note", JVal.str mockNote)]⟩ ∧
    (post_soil_carbon_simple ⟨0, 0, FieldVal.value 10⟩).dataKeys =
      some ["carbon_pct", "sample_id", "distance_meters", "latitude", "longitude",
        "note"] ∧
    (post_soil_carbon_simple ⟨0, 0, FieldVal.value 10⟩).dataKeys ≠
      some ["carbon_pct", "sample_id", "distance_meters", "latitude", "longitude"] := by
  refine ⟨by with_unfolding_all rfl, by with_unfolding_all rfl, ?_⟩
  with_unfolding_all decide

/-- Claim C5 (amended): in the real variant every response body is
{success, message, data}, and whenever success=true the data object
contains exactly the fields carbon_pct, sample_id, distance_meters,
latitude, longitude; in the mock variant the data object additionally
carries a "note" field. -/
theorem c5_amended_success_fields (distOf : ℚ → ℚ → Sample → ℚ) (ds : List Sample)
    (raw : RawRequest) (resp : SoilCarbonResponse)
    (h : post_soil_carbon distOf ds raw = HttpResponse.ok resp)
    (hs : resp.success = true) :
    ∃ dict, resp.data = some dict ∧
      dict.map Prod.fst =
        ["carbon_pct", "sample_id", "distance_meters", "latitude", "longitude"] := by
  unfold post_soil_carbon at h
  cases hv : validate raw with
  | none =>
    rw [hv] at h
    exact absurd h (by simp)
  | some req =>
    rw [hv] at h
    replace h : get_soil_carbon distOf ds req = HttpResponse.ok resp := h
    have hr := validate_some_ranges raw req hv
    rw [get_soil_carbon_in_range distOf ds req ⟨hr.1, hr.2.1⟩ ⟨hr.2.2.1, hr.2.2.2⟩] at h
    cases hm : req.max_distance_km with
    | none =>
      rw [hm] at h
      exact absurd h (by simp [find_soil_carbon_optimized, toResponse])
    | some d =>
      rw [hm, show find_soil_carbon_optimized distOf ds req.latitude req.longitude
        (some d) = Except.ok (find_soil_carbon_core distOf ds req.latitude
          req.longitude d) from rfl] at h
      cases hcore : find_soil_carbon_core distOf ds req.latitude req.longitude d with
      | noData msg =>
        rw [hcore] at h
        have h2 : HttpResponse.ok ⟨false, msg, none⟩ = HttpResponse.ok resp := h
        injection h2 with h3
        rw [← h3] at hs
        exact absurd hs (by simp)
      | found dict =>
        rw [hcore] at h
        have h2 : HttpResponse.ok ⟨true, "Soil carbon data found successfully",
            some dict⟩ = HttpResponse.ok resp := h
        injection h2 with h3
        obtain ⟨s, rest, hnb, c, hc, hdict⟩ :=
          find_core_found_cases distOf ds req.latitude req.longitude d dict hcore
        refine ⟨dict, ?_, ?_⟩
        · rw [← h3]
        · rw [hdict]
          exact carbonDict_keys _ _ _

/-- Witness for C5 (amended) at a successful concrete lookup. -/
theorem c5_amended_success_fields_witness :
    post_soil_carbon exDist goodDataset ⟨0, 0, FieldVal.value 10⟩ =
      HttpResponse.ok ⟨true, "Soil carbon data found successfully",
        some (carbonDict (5/2) sampleWithCarbon 200)⟩ ∧
    ∃ dict, (⟨true, "Soil carbon data found successfully",
        some (carbonDict (5/2) sampleWithCarbon 200)⟩ : SoilCarbonResponse).data =
          some dict ∧
      dict.map Prod.fst =
        ["carbon_pct", "sample_id", "distance_meters", "latitude", "longitude"] :=
  ⟨by with_unfolding_all rfl,
    c5_amended_success_fields exDist goodDataset ⟨0, 0, FieldVal.value 10⟩ _
      (by with_unfolding_all rfl) rfl⟩

/-- Claim C6: a numeric max_distance_km passes validation exactly when it
lies in [0.1, 1000], and an omitted field makes the lookup run with the
default 10.0 km. -/
theorem c6_max_distance_bounds_and_default (distOf : ℚ → ℚ → Sample → ℚ)
    (ds : List Sample) (lat lon x : ℚ) (hlat : -90 ≤ lat ∧ lat ≤ 90)
    (hlon : -180 ≤ lon ∧ lon ≤ 180) :
    ((validate ⟨lat, lon, FieldVal.value x⟩).isSome ↔ 1/10 ≤ x ∧ x ≤ 1000) ∧
    validate ⟨lat, lon, FieldVal.absent⟩ = some ⟨lat, lon, some 10⟩ ∧
    post_soil_carbon distOf ds ⟨lat, lon, FieldVal.absent⟩ =
      toResponse (Except.ok (find_soil_carbon_core distOf ds lat lon 10)) := by
  refine ⟨⟨?_, ?_⟩, validate_absent_eq lat lon hlat hlon, ?_⟩
  · intro hsome
    by_contra hx
    rw [validate_value_none lat lon x hlat hlon hx] at hsome
    exact absurd hsome (by simp)
  · intro hx
    rw [validate_value_eq lat lon x hlat hlon hx]
    rfl
  · unfold post_soil_carbon
    rw [validate_absent_eq lat lon hlat hlon]
    show get_soil_carbon distOf ds ⟨lat, lon, some 10⟩ = _
    rw [get_soil_carbon_in_range distOf ds ⟨lat, lon, some 10⟩ hlat hlon]
    rfl

/-- Witness for C6 at the origin with x = 10. -/
theorem c6_max_distance_bounds_and_default_witness :
    ((validate ⟨0, 0, FieldVal.value 10⟩).isSome ↔ (1/10 : ℚ) ≤ 10 ∧ (10:ℚ) ≤ 1000) ∧
    validate ⟨0, 0, FieldVal.absent⟩ = some ⟨0, 0, some 10⟩ ∧
    post_soil_carbon exDist goodDataset ⟨0, 0, FieldVal.absent⟩ =
      toResponse (Except.ok (find_soil_carbon_core exDist goodDataset 0 0 10)) :=
  c6_max_distance_bounds_and_default exDist goodDataset 0 0 10 (by norm_num)
    (by norm_num)

/-- Claim C7: the code projects to EPSG:3857 and takes planar Euclidean
distances (its comment calls them "exact distances in meters"), but these
are not great-circle distances.  Concretely, for a query at latitude 45,
longitude 0 and a sample at latitude 45, longitude 90, the computed
distance is earthRadius * pi/2 while the great-circle distance is
earthRadius * pi/3: Web Mercator inflates distances away from the
equator, so the filtering, ranking and the reported distance_meters are
not great-circle-equivalent. -/
theorem c7_mercator_not_great_circle :
    mercatorDistance 45 0 45 90 = earthRadius * (Real.pi / 2) ∧
    greatCircleDistance 45 0 45 90 = earthRadius * (Real.pi / 3) ∧
    mercatorDistance 45 0 45 90 ≠ greatCircleDistance 45 0 45 90 := by
  have hR : (0:ℝ) < earthRadius := by norm_num [earthRadius]
  have hpi := Real.pi_pos
  have hx0 : mercatorX 0 = 0 := by unfold mercatorX degToRad; ring
  have hx90 : mercatorX 90 = earthRadius * (Real.pi / 2) := by
    unfold mercatorX degToRad; ring
  have hnn : (0:ℝ) ≤ earthRadius * (Real.pi / 2) :=
    mul_nonneg (le_of_lt hR) (by linarith)
  have harg : (mercatorX 0 - mercatorX 90) ^ 2 + (mercatorY 45 - mercatorY 45) ^ 2 =
      (earthRadius * (Real.pi / 2)) ^ 2 := by
    rw [hx0, hx90, sub_self]
    ring
  have hmerc : mercatorDistance 45 0 45 90 = earthRadius * (Real.pi / 2) := by
    unfold mercatorDistance
    rw [harg, Real.sqrt_sq hnn]
  have hrad45 : degToRad 45 = Real.pi / 4 := by unfold degToRad; ring
  have hdiff : degToRad 0 - degToRad 90 = -(Real.pi / 2) := by unfold degToRad; ring
  have hhalf : Real.sqrt 2 / 2 * (Real.sqrt 2 / 2) = 1 / 2 := by
    rw [div_mul_div_comm, Real.mul_self_sqrt (by norm_num : (0:ℝ) ≤ 2)]
    norm_num
  have hval : Real.sin (degToRad 45) * Real.sin (degToRad 45) +
      Real.cos (degToRad 45) * Real.cos (degToRad 45) *
        Real.cos (degToRad 0 - degToRad 90) = 1 / 2 := by
    rw [hrad45, hdiff, Real.cos_neg, Real.cos_pi_div_two, Real.sin_pi_div_four,
      Real.cos_pi_div_four, mul_zero, add_zero]
    exact hhalf
  have hgc : greatCircleDistance 45 0 45 90 = earthRadius * (Real.pi / 3) := by
    unfold greatCircleDistance
    rw [hval]
    have h13 : Real.arccos (1 / 2) = Real.pi / 3 := by
      rw [show (1/2 : ℝ) = Real.cos (Real.pi / 3) from (Real.cos_pi_div_three).symm]
      exact Real.arccos_cos (by linarith) (by linarith)
    rw [h13]
  refine ⟨hmerc, hgc, ?_⟩
  rw [hmerc, hgc]
  intro heq
  have h2 := mul_left_cancel₀ (ne_of_gt hR) heq
  linarith

/-- Claim C8: every validated request to the mock variant is answered
success=true with the fixed mock payload, its latitude and longitude
being the request coordinates offset by +0.01; and the mock variant never
returns an HTTP-200 body with success=false. -/
theorem c8_mock_always_success (raw : RawRequest) (req : SoilCarbonRequest)
    (h : validate raw = some req) :
    post_soil_carbon_simple raw =
      HttpResponse.ok ⟨true, "Mock soil carbon data returned successfully", some
        [("carbon_pct", JVal.num (5/2)),
         ("sample_id", JVal.str "mock_12345"),
         ("distance_meters", JVal.num 1500),
         ("latitude", JVal.num (req.latitude + 1/100)),
         ("longitude", JVal.num (req.longitude + 1/100)),
         ("note", JVal.str mockNote)]⟩ ∧
    ∀ r2 resp, post_soil_carbon_simple r2 = HttpResponse.ok resp →
      resp.success = true := by
  constructor
  · unfold post_soil_carbon_simple
    rw [h]
    have hr := validate_some_ranges raw req h
    show get_soil_carbon_simple req = _
    exact get_soil_carbon_simple_in_range req ⟨hr.1, hr.2.1⟩ ⟨hr.2.2.1, hr.2.2.2⟩
  · intro r2 resp h2
    unfold post_soil_carbon_simple at h2
    cases hv2 : validate r2 with
    | none =>
      rw [hv2] at h2
      exact absurd h2 (by simp)
    | some req2 =>
      rw [hv2] at h2
      replace h2 : get_soil_carbon_simple req2 = HttpResponse.ok resp := h2
      have hr2 := validate_some_ranges r2 req2 hv2
      rw [get_soil_carbon_simple_in_range req2 ⟨hr2.1, hr2.2.1⟩
        ⟨hr2.2.2.1, hr2.2.2.2⟩] at h2
      injection h2 with h3
      rw [← h3]

/-- Witness for C8 at the origin request with the field omitted. -/
theorem c8_mock_always_success_witness :
    validate ⟨0, 0, FieldVal.absent⟩ = some ⟨0, 0, some 10⟩ ∧
    (post_soil_carbon_simple ⟨0, 0, FieldVal.absent⟩ =
      HttpResponse.ok ⟨true, "Mock soil carbon data returned successfully", some
        [("carbon_pct", JVal.num (5/2)),
         ("sample_id", JVal.str "mock_12345"),
         ("distance_meters", JVal.num 1500),
         ("latitude", JVal.num ((0:ℚ) + 1/100)),
         ("longitude", JVal.num ((0:ℚ) + 1/100)),
         ("note", JVal.str mockNote)]⟩ ∧
      ∀ r2 resp, post_soil_carbon_simple r2 = HttpResponse.ok resp →
        resp.success = true) :=
  ⟨by with_unfolding_all rfl,
    c8_mock_always_success ⟨0, 0, FieldVal.absent⟩ ⟨0, 0, some 10⟩
      (by with_unfolding_all rfl)⟩

/-- Claim C9: an explicit null max_distance_km passes validation (the
[0.1, 1000] bounds do not apply to null), the handler passes None to the
lookup, and the request surfaces as a generic HTTP 500 internal server
error. -/
theorem c9_null_max_distance_internal_error (distOf : ℚ → ℚ → Sample → ℚ)
    (ds : List Sample) (lat lon : ℚ) (hlat : -90 ≤ lat ∧ lat ≤ 90)
    (hlon : -180 ≤ lon ∧ lon ≤ 180) :
    validate ⟨lat, lon, FieldVal.null⟩ = some ⟨lat, lon, none⟩ ∧
    post_soil_carbon distOf ds ⟨lat, lon, FieldVal.null⟩ =
      HttpResponse.serverError ("Internal server error: " ++ noneTypeError) := by
  refine ⟨validate_null_eq lat lon hlat hlon, ?_⟩
  unfold post_soil_carbon
  rw [validate_null_eq lat lon hlat hlon]
  show get_soil_carbon distOf ds ⟨lat, lon, none⟩ = _
  rw [get_soil_carbon_in_range distOf ds ⟨lat, lon, none⟩ hlat hlon]
  rfl

/-- Witness for C9 at the origin on the empty dataset. -/
theorem c9_null_max_distance_internal_error_witness :
    validate ⟨0, 0, FieldVal.null⟩ = some ⟨0, 0, none⟩ ∧
    post_soil_carbon exDist [] ⟨0, 0, FieldVal.null⟩ =
      HttpResponse.serverError ("Internal server error: " ++ noneTypeError) :=
  c9_null_max_distance_internal_error exDist [] 0 0 (by norm_num) (by norm_num)

/-- Claim C10: the in-handler coordinate checks are dead code: any request
that passes model validation already has in-range coordinates, so neither
handler can ever return one of its 400 client-error branches. -/
theorem c10_handler_range_checks_dead (raw : RawRequest) (req : SoilCarbonRequest)
    (h : validate raw = some req) :
    (-90 ≤ req.latitude ∧ req.latitude ≤ 90 ∧
      -180 ≤ req.longitude ∧ req.longitude ≤ 180) ∧
    (∀ distOf ds code detail,
      get_soil_carbon distOf ds req ≠ HttpResponse.clientError code detail) ∧
    (∀ code detail,
      get_soil_carbon_simple req ≠ HttpResponse.clientError code detail) := by
  have hr := validate_some_ranges raw req h
  refine ⟨hr, ?_, ?_⟩
  · intro distOf ds code detail
    exact get_soil_carbon_not_clientError distOf ds req ⟨hr.1, hr.2.1⟩
      ⟨hr.2.2.1, hr.2.2.2⟩ code detail
  · intro code detail
    rw [get_soil_carbon_simple_in_range req ⟨hr.1, hr.2.1⟩ ⟨hr.2.2.1, hr.2.2.2⟩]
    simp

/-- Witness for C10 at the origin request with the field omitted. -/
theorem c10_handler_range_checks_dead_witness :
    validate ⟨0, 0, FieldVal.absent⟩ = some ⟨0, 0, some 10⟩ ∧
    (((-90:ℚ) ≤ 0 ∧ (0:ℚ) ≤ 90 ∧ (-180:ℚ) ≤ 0 ∧ (0:ℚ) ≤ 180) ∧
      (∀ distOf ds code detail,
        get_soil_carbon distOf ds ⟨0, 0, some 10⟩ ≠
          HttpResponse.clientError code detail) ∧
      (∀ code detail,
        get_soil_carbon_simple ⟨0, 0, some 10⟩ ≠
          HttpResponse.clientError code detail)) :=
  ⟨by with_unfolding_all rfl,
    c10_handler_range_checks_dead ⟨0, 0, FieldVal.absent⟩ ⟨0, 0, some 10⟩
      (by with_unfolding_all rfl)⟩

end SoilCarbonApi
